import Mathlib

/-!
Shallow embedding of the supersim MIPS-style emulator core
(src/computer/cpu.rs, src/computer/memory.rs, src/computer/mod.rs).

Machine integers are modelled as `Nat` with explicit reduction modulo
`2 ^ 32` (resp. `2 ^ 16`) wherever the Rust code performs wrapping
unsigned arithmetic, and as `Int` intermediates with explicit signed
wrapping wherever the Rust code computes on `i32` / `i16` (release
semantics: wrap-around).  Functions that can `panic!` in the Rust source,
and Rust array indexing that can go out of bounds, are embedded as
`Option`-valued functions where a panic is reachable (`none` = the host
process aborts).
-/

set_option autoImplicit false
set_option maxRecDepth 8000

/-- The value of a `u32` expression: reduction modulo `2 ^ 32`. -/
def mask32 (n : Nat) : Nat := n % 2 ^ 32

/-- Rust `!x` on `u32` (bitwise complement within 32 bits). -/
def not32 (n : Nat) : Nat := 0xFFFFFFFF ^^^ n

/-- Reinterpret a 32-bit pattern as a signed integer (`x as i32`). -/
def toSigned32 (n : Nat) : Int :=
  if n % 2 ^ 32 < 2 ^ 31 then (n % 2 ^ 32 : Nat) else (n % 2 ^ 32 : Nat) - 2 ^ 32

/-- Reinterpret a 16-bit pattern as a signed integer (`x as i16`). -/
def toSigned16 (n : Nat) : Int :=
  if n % 2 ^ 16 < 2 ^ 15 then (n % 2 ^ 16 : Nat) else (n % 2 ^ 16 : Nat) - 2 ^ 16

/-- An `i32` intermediate result, wrapped into `[-2^31, 2^31)`
(Rust release-mode arithmetic). -/
def wrapS32 (i : Int) : Int := (i + 2 ^ 31) % 2 ^ 32 - 2 ^ 31

/-- An `i16` intermediate result, wrapped into `[-2^15, 2^15)`. -/
def wrapS16 (i : Int) : Int := (i + 2 ^ 15) % 2 ^ 16 - 2 ^ 15

/-- Cast a signed value to `u32` (`x as u32`). -/
def wrap32 (i : Int) : Nat := (i % 2 ^ 32).toNat

/-- `imm as i16 as i32 as u32`: sign-extend a 16-bit immediate to 32 bits. -/
def signExtend16 (n : Nat) : Nat := wrap32 (toSigned16 n)

/-- `b as u8 as i8 as i32 as u32`: sign-extend a byte to 32 bits. -/
def signExtend8 (n : Nat) : Nat :=
  wrap32 (if n % 2 ^ 8 < 2 ^ 7 then (n % 2 ^ 8 : Int) else (n % 2 ^ 8 : Int) - 2 ^ 8)

/-- The CPU phase tag (enum `CPUPhase` in cpu.rs). -/
inductive CPUPhase where
  | Fetch
  | DecodeAndExecute
  | WriteBack
  | InterruptCheck
deriving DecidableEq, Repr

/-- The pending bus transaction descriptor (struct `MemoryBuffer` in cpu.rs).
The `partial_write` field of the source is called `part_write` here. -/
structure MemoryBuffer where
  address : Nat
  data : Nat
  data_size : Nat
  store : Bool
  write_back_register : Nat
  sign_extended : Bool
  part_write : Option (Nat × Nat)
deriving DecidableEq, Repr

/-- The processor state (struct `CPU` in cpu.rs).  The 32 FP registers
are kept as their raw 32-bit patterns (`cp1_reg`); the source moves those
bits around with `mem::transmute`. -/
structure CPU where
  int_reg : List Nat
  cp0_reg : List Nat
  hi : Nat
  lo : Nat
  cp1_reg : List Nat
  cc : List Bool
  pc : Nat
  memory_buffer : MemoryBuffer
  phase : CPUPhase
deriving DecidableEq, Repr

/-- Exception handler entry (`EXCEPTION_HANDLER_ADDRESS`). -/
def EXCEPTION_HANDLER_ADDRESS : Nat := 0x80000180

namespace CPU

/-- `CPU::new`: all registers zero, Status = interrupt mask 0xFF and
current mode `01` (kernel, interrupts enabled), phase Fetch, PC 0. -/
def new : CPU :=
  { int_reg := List.replicate 32 0
    cp0_reg := (List.replicate 32 0).set 12 0x0000FF01
    hi := 0
    lo := 0
    cp1_reg := List.replicate 32 0
    cc := List.replicate 8 false
    pc := 0
    memory_buffer :=
      { address := 0, data := 0, data_size := 0, store := false
        write_back_register := 0, sign_extended := false, part_write := none }
    phase := CPUPhase.Fetch }

/-- `CPU::is_kernel_mode`: Status bit 1 clear. -/
def is_kernel_mode (cpu : CPU) : Bool := cpu.cp0_reg.getD 12 0 &&& 0b10 == 0

/-- Read an integer register (`self.int_reg[r]`; all call sites pass a
5-bit field, so the index is in range). -/
def readReg (cpu : CPU) (r : Nat) : Nat := cpu.int_reg.getD r 0

/-- `CPU::write_to_reg`: writes to register 0 are ignored.  (The source
panics for `r > 31`; every call site passes a 5-bit field or the checked
`write_back_register ≤ 31`, so that arm is unreachable.) -/
def write_to_reg (cpu : CPU) (r v : Nat) : CPU :=
  if r = 0 then cpu else { cpu with int_reg := cpu.int_reg.set r v }

/-- `CPU::execute_exception` with the exception code as a plain number
(enum `ExceptionCode` in the source). -/
def execute_exception (cpu : CPU) (exception_code : Nat) (bad_address : Option Nat) : CPU :=
  let cp0 := match bad_address with
    | some address => cpu.cp0_reg.set 8 address
    | none => cpu.cp0_reg
  let cause := cp0.getD 13 0
  let cause := cause &&& not32 0b1111100 ||| (exception_code &&& 0b11111) <<< 2
  let cp0 := cp0.set 13 cause
  let status := cp0.getD 12 0
  let previous_current_status : Nat := 0b1111
  let status := status &&& not32 0b111111 ||| previous_current_status <<< 2
  let cp0 := cp0.set 12 status
  let cp0 := cp0.set 14 cpu.pc
  { cpu with cp0_reg := cp0, pc := EXCEPTION_HANDLER_ADDRESS }

/-- `CPU::sll` (shift amount is a 5-bit field). -/
def sll (cpu : CPU) (rd rt shamt : Nat) : CPU :=
  let op1 := cpu.readReg rt
  let op2 := shamt &&& 0b11111
  cpu.write_to_reg rd (mask32 (op1 <<< op2))

/-- `CPU::srl`. -/
def srl (cpu : CPU) (rd rt shamt : Nat) : CPU :=
  let op1 := cpu.readReg rt
  let op2 := shamt &&& 0b11111
  cpu.write_to_reg rd (op1 >>> op2)

/-- `CPU::sra` (arithmetic right shift of the register as `i32`;
a sign-propagating shift is floor division by a power of two). -/
def sra (cpu : CPU) (rd rt shamt : Nat) : CPU :=
  let op1 := toSigned32 (cpu.readReg rt)
  let op2 := shamt &&& 0b11111
  cpu.write_to_reg rd (wrap32 (op1.fdiv (2 ^ op2)))

/-- `CPU::sllv` (Rust release semantics: the shift count is masked to 5
bits by the overflowing-shift rules). -/
def sllv (cpu : CPU) (rd rt rs : Nat) : CPU :=
  let op1 := cpu.readReg rt
  let op2 := cpu.readReg rs
  cpu.write_to_reg rd (mask32 (op1 <<< (op2 % 32)))

/-- `CPU::srlv`. -/
def srlv (cpu : CPU) (rd rt rs : Nat) : CPU :=
  let op1 := cpu.readReg rt
  let op2 := cpu.readReg rs
  cpu.write_to_reg rd (op1 >>> (op2 % 32))

/-- `CPU::srav`. -/
def srav (cpu : CPU) (rd rt rs : Nat) : CPU :=
  let op1 := toSigned32 (cpu.readReg rt)
  let op2 := cpu.readReg rs
  cpu.write_to_reg rd (wrap32 (op1.fdiv (2 ^ (op2 % 32))))

/-- `CPU::jr`. -/
def jr (cpu : CPU) (rs : Nat) : CPU := { cpu with pc := cpu.readReg rs }

/-- `CPU::jalr`. -/
def jalr (cpu : CPU) (rd rs : Nat) : CPU :=
  let cpu := cpu.write_to_reg rd cpu.pc
  { cpu with pc := cpu.readReg rs }

/-- `CPU::syscall`: raise Syscall (code 8). -/
def syscall (cpu : CPU) : CPU := cpu.execute_exception 8 none

/-- `CPU::mfhi`. -/
def mfhi (cpu : CPU) (rd : Nat) : CPU := cpu.write_to_reg rd cpu.hi

/-- `CPU::mthi`. -/
def mthi (cpu : CPU) (rs : Nat) : CPU := { cpu with hi := cpu.readReg rs }

/-- `CPU::mflo`. -/
def mflo (cpu : CPU) (rd : Nat) : CPU := cpu.write_to_reg rd cpu.lo

/-- `CPU::mtlo`. -/
def mtlo (cpu : CPU) (rs : Nat) : CPU := { cpu with lo := cpu.readReg rs }

/-- `CPU::mult`.  The source zero-extends both operands
(`as u64 as i64`) before the 64-bit multiplication. -/
def mult (cpu : CPU) (rs rt : Nat) : CPU :=
  let op1 := cpu.readReg rs
  let op2 := cpu.readReg rt
  let result := op1 * op2
  { cpu with hi := result >>> 32, lo := result &&& 0xFFFFFFFF }

/-- `CPU::multu`. -/
def multu (cpu : CPU) (rs rt : Nat) : CPU :=
  let op1 := cpu.readReg rs
  let op2 := cpu.readReg rt
  let result := op1 * op2
  { cpu with hi := result >>> 32, lo := result &&& 0xFFFFFFFF }

/-- `CPU::div` (signed; Rust `i32` division panics on a zero divisor and
on `i32::MIN / -1`, hence `none` there). -/
def div (cpu : CPU) (rs rt : Nat) : Option CPU :=
  let op1 := toSigned32 (cpu.readReg rs)
  let op2 := toSigned32 (cpu.readReg rt)
  if op2 = 0 ∨ (op1 = -(2 ^ 31) ∧ op2 = -1) then none
  else some { cpu with lo := wrap32 (op1.tdiv op2), hi := wrap32 (op1.tmod op2) }

/-- `CPU::divu` (panics on a zero divisor). -/
def divu (cpu : CPU) (rs rt : Nat) : Option CPU :=
  let op1 := cpu.readReg rs
  let op2 := cpu.readReg rt
  if op2 = 0 then none
  else some { cpu with lo := op1 / op2, hi := op1 % op2 }

/-- `CPU::add`: `i32` addition (wrapping), a sign-based overflow test
that raises Overflow (code 12), then the truncated result is written. -/
def add (cpu : CPU) (rd rs rt : Nat) : CPU :=
  let op1 := toSigned32 (cpu.readReg rs)
  let op2 := toSigned32 (cpu.readReg rt)
  let result := wrapS32 (op1 + op2)
  let cpu :=
    if (op1 > 0 ∧ op2 > 0 ∧ result < 0) ∨ (op1 < 0 ∧ op2 < 0 ∧ result > 0)
    then cpu.execute_exception 12 none else cpu
  cpu.write_to_reg rd (wrap32 result)

/-- `CPU::addu`. -/
def addu (cpu : CPU) (rd rs rt : Nat) : CPU :=
  cpu.write_to_reg rd (mask32 (cpu.readReg rs + cpu.readReg rt))

/-- `CPU::sub`: `i32` subtraction with the source's sign-based overflow
test (Overflow, code 12), then the truncated result is written. -/
def sub (cpu : CPU) (rd rs rt : Nat) : CPU :=
  let op1 := toSigned32 (cpu.readReg rs)
  let op2 := toSigned32 (cpu.readReg rt)
  let result := wrapS32 (op1 - op2)
  let cpu :=
    if (op1 < 0 ∧ op2 > 0 ∧ result > 0) ∨ (op1 > 0 ∧ op2 < 0 ∧ result < 0)
    then cpu.execute_exception 12 none else cpu
  cpu.write_to_reg rd (wrap32 result)

/-- `CPU::subu` (u32 wrapping subtraction). -/
def subu (cpu : CPU) (rd rs rt : Nat) : CPU :=
  cpu.write_to_reg rd (wrap32 ((cpu.readReg rs : Int) - (cpu.readReg rt : Int)))

/-- `CPU::and`. -/
def and (cpu : CPU) (rd rs rt : Nat) : CPU :=
  cpu.write_to_reg rd (cpu.readReg rs &&& cpu.readReg rt)

/-- `CPU::or`. -/
def or (cpu : CPU) (rd rs rt : Nat) : CPU :=
  cpu.write_to_reg rd (cpu.readReg rs ||| cpu.readReg rt)

/-- `CPU::xor`. -/
def xor (cpu : CPU) (rd rs rt : Nat) : CPU :=
  cpu.write_to_reg rd (cpu.readReg rs ^^^ cpu.readReg rt)

/-- `CPU::nor`. -/
def nor (cpu : CPU) (rd rs rt : Nat) : CPU :=
  cpu.write_to_reg rd (not32 (cpu.readReg rs ||| cpu.readReg rt))

/-- `CPU::slt`: the source compares the sign of the wrapped `i32`
difference of the operands. -/
def slt (cpu : CPU) (rd rs rt : Nat) : CPU :=
  let op1 := toSigned32 (cpu.readReg rs)
  let op2 := toSigned32 (cpu.readReg rt)
  let difference := wrapS32 (op1 - op2)
  cpu.write_to_reg rd (if difference < 0 then 1 else 0)

/-- `CPU::sltu`. -/
def sltu (cpu : CPU) (rd rs rt : Nat) : CPU :=
  cpu.write_to_reg rd (if cpu.readReg rs < cpu.readReg rt then 1 else 0)

/-- `CPU::j`. -/
def j (cpu : CPU) (address : Nat) : CPU :=
  let address := address &&& 0x03FFFFFF
  let upper := cpu.pc &&& 0xF0000000
  let lower := address <<< 2
  { cpu with pc := upper ||| lower }

/-- `CPU::jal` (return address register 31). -/
def jal (cpu : CPU) (address : Nat) : CPU :=
  (cpu.write_to_reg 31 cpu.pc).j address

/-- `CPU::branch`: the source multiplies the offset as an `i16`
(wrapping), then sign-extends the 16-bit product and adds it to PC. -/
def branch (cpu : CPU) (imm : Nat) : CPU :=
  let offset := wrapS16 (toSigned16 imm * 4)
  { cpu with pc := wrap32 (toSigned32 cpu.pc + offset) }

/-- `CPU::beq`. -/
def beq (cpu : CPU) (rs rt imm : Nat) : CPU :=
  if cpu.readReg rs = cpu.readReg rt then cpu.branch imm else cpu

/-- `CPU::bne`. -/
def bne (cpu : CPU) (rs rt imm : Nat) : CPU :=
  if cpu.readReg rs ≠ cpu.readReg rt then cpu.branch imm else cpu

/-- `CPU::blez` (the source compares the register as a `u32`, so the
condition is `= 0`). -/
def blez (cpu : CPU) (rs imm : Nat) : CPU :=
  if cpu.readReg rs ≤ 0 then cpu.branch imm else cpu

/-- `CPU::bgtz` (unsigned compare in the source). -/
def bgtz (cpu : CPU) (rs imm : Nat) : CPU :=
  if cpu.readReg rs > 0 then cpu.branch imm else cpu

/-- `CPU::addi`: `i32` addition (wrapping) of the register and the
sign-extended immediate, with the source's overflow test. -/
def addi (cpu : CPU) (rt rs imm : Nat) : CPU :=
  let op1 := toSigned32 (cpu.readReg rs)
  let op2 := toSigned16 imm
  let result := wrapS32 (op1 + op2)
  let cpu :=
    if (op1 < 0 ∧ op2 < 0 ∧ result > 0) ∨ (op1 > 0 ∧ op2 > 0 ∧ result < 0)
    then cpu.execute_exception 12 none else cpu
  cpu.write_to_reg rt (wrap32 result)

/-- `CPU::addiu`. -/
def addiu (cpu : CPU) (rt rs imm : Nat) : CPU :=
  cpu.write_to_reg rt (mask32 (cpu.readReg rs + signExtend16 imm))

/-- `CPU::slti`. -/
def slti (cpu : CPU) (rt rs imm : Nat) : CPU :=
  let op1 := toSigned32 (cpu.readReg rs)
  let op2 := toSigned16 imm
  cpu.write_to_reg rt (if op1 < op2 then 1 else 0)

/-- `CPU::sltiu` (unsigned compare against the sign-extended immediate). -/
def sltiu (cpu : CPU) (rt rs imm : Nat) : CPU :=
  cpu.write_to_reg rt (if cpu.readReg rs < signExtend16 imm then 1 else 0)

/-- `CPU::andi`. -/
def andi (cpu : CPU) (rt rs imm : Nat) : CPU :=
  cpu.write_to_reg rt (cpu.readReg rs &&& imm)

/-- `CPU::ori`. -/
def ori (cpu : CPU) (rt rs imm : Nat) : CPU :=
  cpu.write_to_reg rt (cpu.readReg rs ||| imm)

/-- `CPU::xori`. -/
def xori (cpu : CPU) (rt rs imm : Nat) : CPU :=
  cpu.write_to_reg rt (cpu.readReg rs ^^^ imm)

/-- `CPU::lui`. -/
def lui (cpu : CPU) (rt imm : Nat) : CPU :=
  cpu.write_to_reg rt (imm <<< 16)

/-- `CPU::lb`. -/
def lb (cpu : CPU) (rt rs imm : Nat) : CPU :=
  let address := mask32 (cpu.readReg rs + signExtend16 imm)
  { cpu with memory_buffer :=
    { address := address, data := 0, data_size := 1, store := false
      write_back_register := rt, sign_extended := false, part_write := none } }

/-- `CPU::lh`. -/
def lh (cpu : CPU) (rt rs imm : Nat) : CPU :=
  let address := mask32 (cpu.readReg rs + signExtend16 imm)
  { cpu with memory_buffer :=
    { address := address, data := 0, data_size := 2, store := false
      write_back_register := rt, sign_extended := true, part_write := none } }

/-- `CPU::lw`. -/
def lw (cpu : CPU) (rt rs imm : Nat) : CPU :=
  let address := mask32 (cpu.readReg rs + signExtend16 imm)
  { cpu with memory_buffer :=
    { address := address, data := 0, data_size := 4, store := false
      write_back_register := rt, sign_extended := true, part_write := none } }

/-- `CPU::lbu`. -/
def lbu (cpu : CPU) (rt rs imm : Nat) : CPU :=
  let address := mask32 (cpu.readReg rs + signExtend16 imm)
  { cpu with memory_buffer :=
    { address := address, data := 0, data_size := 1, store := false
      write_back_register := rt, sign_extended := false, part_write := none } }

/-- `CPU::lhu`. -/
def lhu (cpu : CPU) (rt rs imm : Nat) : CPU :=
  let address := mask32 (cpu.readReg rs + signExtend16 imm)
  { cpu with memory_buffer :=
    { address := address, data := 0, data_size := 2, store := false
      write_back_register := rt, sign_extended := false, part_write := none } }

/-- `CPU::sb`. -/
def sb (cpu : CPU) (rt rs imm : Nat) : CPU :=
  let data := cpu.readReg rt &&& 0xFF
  let address := mask32 (cpu.readReg rs + signExtend16 imm)
  { cpu with memory_buffer :=
    { address := address, data := data, data_size := 1, store := true
      write_back_register := 0, sign_extended := false, part_write := none } }

/-- `CPU::sh`. -/
def sh (cpu : CPU) (rt rs imm : Nat) : CPU :=
  let data := cpu.readReg rt &&& 0xFFFF
  let address := mask32 (cpu.readReg rs + signExtend16 imm)
  { cpu with memory_buffer :=
    { address := address, data := data, data_size := 2, store := true
      write_back_register := 0, sign_extended := false, part_write := none } }

/-- `CPU::sw`. -/
def sw (cpu : CPU) (rt rs imm : Nat) : CPU :=
  let data := cpu.readReg rt
  let address := mask32 (cpu.readReg rs + signExtend16 imm)
  { cpu with memory_buffer :=
    { address := address, data := data, data_size := 4, store := true
      write_back_register := 0, sign_extended := false, part_write := none } }

/-- `CPU::lwl`: word-align the address down and request a partial
writeback of bytes `(0, 3 - addr mod 4)`. -/
def lwl (cpu : CPU) (rt base offset : Nat) : CPU :=
  let address := wrap32 (toSigned32 (cpu.readReg base) + toSigned16 offset)
  let word_address := address - address % 4
  let bytes_count := 4 - address % 4
  { cpu with memory_buffer :=
    { address := word_address, data := 0, data_size := 4, store := false
      write_back_register := rt, sign_extended := false
      part_write := some (0, bytes_count - 1) } }

/-- `CPU::lwr`: word-align the address down and request a partial
writeback of bytes `(4 - (addr mod 4 + 1), 3)`. -/
def lwr (cpu : CPU) (rt base offset : Nat) : CPU :=
  let address := wrap32 (toSigned32 (cpu.readReg base) + toSigned16 offset)
  let word_address := address - address % 4
  let bytes_count := address % 4 + 1
  { cpu with memory_buffer :=
    { address := word_address, data := 0, data_size := 4, store := false
      write_back_register := rt, sign_extended := false
      part_write := some (4 - bytes_count, 3) } }

/-- `CPU::mfc0` (panics outside kernel mode). -/
def mfc0 (cpu : CPU) (rt rd : Nat) : Option CPU :=
  if ¬ cpu.is_kernel_mode then none
  else some (cpu.write_to_reg rt (cpu.cp0_reg.getD rd 0))

/-- `CPU::mtc0` (panics outside kernel mode). -/
def mtc0 (cpu : CPU) (rt rd : Nat) : Option CPU :=
  if ¬ cpu.is_kernel_mode then none
  else some { cpu with cp0_reg := cpu.cp0_reg.set rd (cpu.readReg rt) }

/-- `CPU::teq` (trap code 13, `CalledTrap`). -/
def teq (cpu : CPU) (rs rt : Nat) : CPU :=
  if toSigned32 (cpu.readReg rs) = toSigned32 (cpu.readReg rt)
  then cpu.execute_exception 13 none else cpu

/-- `CPU::teqi`. -/
def teqi (cpu : CPU) (rs imm : Nat) : CPU :=
  if toSigned32 (cpu.readReg rs) = toSigned16 imm
  then cpu.execute_exception 13 none else cpu

/-- `CPU::tne` (unsigned compare in the source). -/
def tne (cpu : CPU) (rs rt : Nat) : CPU :=
  if cpu.readReg rs ≠ cpu.readReg rt then cpu.execute_exception 13 none else cpu

/-- `CPU::tnei`. -/
def tnei (cpu : CPU) (rs imm : Nat) : CPU :=
  if toSigned32 (cpu.readReg rs) ≠ toSigned16 imm
  then cpu.execute_exception 13 none else cpu

/-- `CPU::tge`. -/
def tge (cpu : CPU) (rs rt : Nat) : CPU :=
  if toSigned32 (cpu.readReg rs) ≥ toSigned32 (cpu.readReg rt)
  then cpu.execute_exception 13 none else cpu

/-- `CPU::tgeu`. -/
def tgeu (cpu : CPU) (rs rt : Nat) : CPU :=
  if cpu.readReg rs ≥ cpu.readReg rt then cpu.execute_exception 13 none else cpu

/-- `CPU::tgei` (the source compares with `≠`, not `≥`). -/
def tgei (cpu : CPU) (rs imm : Nat) : CPU :=
  if toSigned32 (cpu.readReg rs) ≠ toSigned16 imm
  then cpu.execute_exception 13 none else cpu

/-- `CPU::tgeiu` (unsigned compare against the sign-extended immediate). -/
def tgeiu (cpu : CPU) (rs imm : Nat) : CPU :=
  if cpu.readReg rs ≥ signExtend16 imm then cpu.execute_exception 13 none else cpu

/-- `CPU::tlt`. -/
def tlt (cpu : CPU) (rs rt : Nat) : CPU :=
  if toSigned32 (cpu.readReg rs) < toSigned32 (cpu.readReg rt)
  then cpu.execute_exception 13 none else cpu

/-- `CPU::tltu`. -/
def tltu (cpu : CPU) (rs rt : Nat) : CPU :=
  if cpu.readReg rs < cpu.readReg rt then cpu.execute_exception 13 none else cpu

/-- `CPU::tlti`. -/
def tlti (cpu : CPU) (rs imm : Nat) : CPU :=
  if toSigned32 (cpu.readReg rs) < toSigned16 imm
  then cpu.execute_exception 13 none else cpu

/-- `CPU::tltiu`. -/
def tltiu (cpu : CPU) (rs imm : Nat) : CPU :=
  if cpu.readReg rs < signExtend16 imm then cpu.execute_exception 13 none else cpu

/-- `CPU::rfe` (panics outside kernel mode): shift the Status mode stack
right by 2, leaving the old field unchanged. -/
def rfe (cpu : CPU) : Option CPU :=
  if ¬ cpu.is_kernel_mode then none
  else
    let status := cpu.cp0_reg.getD 12 0
    let old_previous := (status &&& 0b111100) >>> 2
    let status := status &&& not32 0b1111 ||| old_previous
    some { cpu with cp0_reg := cpu.cp0_reg.set 12 status }

/-- `CPU::eret`: `rfe`, then PC ← EPC. -/
def eret (cpu : CPU) : Option CPU :=
  (rfe cpu).map fun cpu => { cpu with pc := cpu.cp0_reg.getD 14 0 }

/-- `CPU::get_double_precision`, at the level of raw bit patterns
(the source transmutes the even/odd register pair into an `f64`):
panics on an odd register index. -/
def get_double_precision (cpu : CPU) (reg_num : Nat) : Option Nat :=
  if reg_num % 2 = 1 then none
  else
    let upper := cpu.cp1_reg.getD (reg_num + 1) 0
    let lower := cpu.cp1_reg.getD reg_num 0
    some (upper <<< 32 ||| lower)

/-- `CPU::write_to_double_register` on raw bit patterns: panics on an
odd register index. -/
def write_to_double_register (cpu : CPU) (reg_num bits : Nat) : Option CPU :=
  if reg_num % 2 = 1 then none
  else
    let upper_bits := bits >>> 32
    let lower_bits := bits &&& 0xFFFFFFFF
    some { cpu with cp1_reg := (cpu.cp1_reg.set reg_num lower_bits).set (reg_num + 1) upper_bits }

/-- `CPU::mfc1`: move the FP register bit pattern to a GPR. -/
def mfc1 (cpu : CPU) (rt fs : Nat) : CPU :=
  cpu.write_to_reg rt (cpu.cp1_reg.getD fs 0)

/-- `CPU::mtc1`: move a GPR bit pattern to an FP register. -/
def mtc1 (cpu : CPU) (rt fs : Nat) : CPU :=
  { cpu with cp1_reg := cpu.cp1_reg.set fs (cpu.readReg rt) }

/-- `CPU::lwc1`. -/
def lwc1 (cpu : CPU) (ft base offset : Nat) : CPU :=
  let address := wrap32 (toSigned32 (cpu.readReg base) + toSigned16 offset)
  { cpu with memory_buffer :=
    { address := address, data := 0, data_size := 4, store := false
      write_back_register := ft + 32, sign_extended := false, part_write := none } }

/-- `CPU::swc1`. -/
def swc1 (cpu : CPU) (ft base offset : Nat) : CPU :=
  let data := cpu.cp1_reg.getD ft 0
  let address := wrap32 (toSigned32 (cpu.readReg base) + toSigned16 offset)
  { cpu with memory_buffer :=
    { address := address, data := data, data_size := 4, store := true
      write_back_register := 0, sign_extended := false, part_write := none } }

/-- `CPU::mov_s` (a plain bit copy). -/
def mov_s (cpu : CPU) (fd fs : Nat) : CPU :=
  { cpu with cp1_reg := cpu.cp1_reg.set fd (cpu.cp1_reg.getD fs 0) }

/-- `CPU::mov_d` (a bit copy of the even/odd pair). -/
def mov_d (cpu : CPU) (fd fs : Nat) : Option CPU :=
  (cpu.get_double_precision fs).bind fun bits => cpu.write_to_double_register fd bits

/-- `CPU::movf_d`. -/
def movf_d (cpu : CPU) (fd fs cc_num : Nat) : Option CPU :=
  if cpu.cc.getD cc_num false = false then cpu.mov_d fd fs else some cpu

/-- `CPU::movf_s`. -/
def movf_s (cpu : CPU) (fd fs cc_num : Nat) : CPU :=
  if cpu.cc.getD cc_num false = false then cpu.mov_s fd fs else cpu

/-- `CPU::movt_d`. -/
def movt_d (cpu : CPU) (fd fs cc_num : Nat) : Option CPU :=
  if cpu.cc.getD cc_num false = true then cpu.mov_d fd fs else some cpu

/-- `CPU::movt_s`. -/
def movt_s (cpu : CPU) (fd fs cc_num : Nat) : CPU :=
  if cpu.cc.getD cc_num false = true then cpu.mov_s fd fs else cpu

/-- `CPU::movn_d` (the source tests `cp0_reg[rt]`, not `int_reg[rt]`). -/
def movn_d (cpu : CPU) (fd fs rt : Nat) : Option CPU :=
  if cpu.cp0_reg.getD rt 0 ≠ 0 then cpu.mov_d fd fs else some cpu

/-- `CPU::movn_s` (the source tests `cp0_reg[rt]`). -/
def movn_s (cpu : CPU) (fd fs rt : Nat) : CPU :=
  if cpu.cp0_reg.getD rt 0 ≠ 0 then cpu.mov_s fd fs else cpu

/-- `CPU::movz_d` (the source tests `cp0_reg[rt]`). -/
def movz_d (cpu : CPU) (fd fs rt : Nat) : Option CPU :=
  if cpu.cp0_reg.getD rt 0 = 0 then cpu.mov_d fd fs else some cpu

/-- `CPU::movz_s` (the source tests `cp0_reg[rt]`). -/
def movz_s (cpu : CPU) (fd fs rt : Nat) : CPU :=
  if cpu.cp0_reg.getD rt 0 = 0 then cpu.mov_s fd fs else cpu

/-- `CPU::set_interrupt_requests`: copy the 8-bit request mask into
Cause bits [15:8]. -/
def set_interrupt_requests (cpu : CPU) (interrupt_requests : Nat) : CPU :=
  let cause := cpu.cp0_reg.getD 13 0
  let cause := cause &&& not32 (0xFF <<< 8) ||| (interrupt_requests &&& 0xFF) <<< 8
  { cpu with cp0_reg := cpu.cp0_reg.set 13 cause }

/-- `CPU::handle_interrupts`: if Status bit 0 is set and an unmasked
request line is up, raise Interrupt (code 0). -/
def handle_interrupts (cpu : CPU) (interrupt_requests : Nat) : CPU :=
  let status := cpu.cp0_reg.getD 12 0
  if status &&& 0x01 ≠ 1 then cpu
  else
    let mask := status >>> 8 &&& 0xFF
    if (interrupt_requests &&& 0xFF) &&& mask ≠ 0
    then cpu.execute_exception 0 none else cpu

/-- `CPU::decode_cp0`: the `(opcode, rs, funct)` match (first matching
arm; the fall-through arm is a no-op). -/
def decode_cp0 (cpu : CPU) (instruction : Nat) : Option CPU :=
  let opcode := instruction >>> 26
  let rs := instruction >>> 21 &&& 0b11111
  let rt := instruction >>> 16 &&& 0b11111
  let rd := instruction >>> 11 &&& 0b11111
  let funct := instruction &&& 0b111111
  if opcode = 16 ∧ rs = 0 ∧ funct = 0 then cpu.mfc0 rt rd
  else if opcode = 16 ∧ rs = 4 ∧ funct = 0 then cpu.mtc0 rt rd
  else some cpu

/-- First match statement of `CPU::decode_cp1` (`swc1` / `lwc1`). -/
def decode_cp1_ls (cpu : CPU) (instruction : Nat) : CPU :=
  let opcode := instruction >>> 26
  let opcode2 := instruction >>> 21 &&& 0b11111
  let ft := instruction >>> 16 &&& 0b11111
  let offset := instruction &&& 0xFFFF
  if opcode = 0x39 then cpu.swc1 ft opcode2 offset
  else if opcode = 0x31 then cpu.lwc1 ft opcode2 offset
  else cpu

/-- Second match statement of `CPU::decode_cp1` (`mfc1` / `mtc1`). -/
def decode_cp1_mv (cpu : CPU) (instruction : Nat) : CPU :=
  let opcode := instruction >>> 26
  let opcode2 := instruction >>> 21 &&& 0b11111
  let ft := instruction >>> 16 &&& 0b11111
  let fs := instruction >>> 11 &&& 0b11111
  let fd := instruction >>> 6 &&& 0b11111
  let last := instruction &&& 0b111111
  if opcode = 0x11 ∧ opcode2 = 0 ∧ fd = 0 ∧ last = 0 then cpu.mfc1 ft fs
  else if opcode = 0x11 ∧ opcode2 = 4 ∧ fd = 0 ∧ last = 0 then cpu.mtc1 ft fs
  else cpu

/-- Third match statement of `CPU::decode_cp1` (the arithmetic / move
group, matched on `(opcode, opcode2, ft, last)` in source arm order).
The arms performing IEEE-754 arithmetic or conversions on the host
(`abs/add/ceil/cvt/div/floor/mul/neg/round/sqrt/sub/trunc`) are not
embedded and map to `none`; every word with opcode 0x11 subsequently
hits the `decode_int_instruction` catch-all panic, so the composite
`decode_and_execute` is unaffected by that choice. -/
def decode_cp1_arith (cpu : CPU) (instruction : Nat) : Option CPU :=
  let opcode := instruction >>> 26
  let opcode2 := instruction >>> 21 &&& 0b11111
  let ft := instruction >>> 16 &&& 0b11111
  let fs := instruction >>> 11 &&& 0b11111
  let fd := instruction >>> 6 &&& 0b11111
  let last := instruction &&& 0b111111
  if opcode = 0x11 ∧ opcode2 = 1 ∧ ft = 0 ∧ last = 5 then none
  else if opcode = 0x11 ∧ opcode2 = 0 ∧ ft = 0 ∧ last = 5 then none
  else if opcode = 0x11 ∧ opcode2 = 0x11 ∧ last = 0 then none
  else if opcode = 0x11 ∧ opcode2 = 0x10 ∧ last = 0 then none
  else if opcode = 0x11 ∧ opcode2 = 0x11 ∧ ft = 0 ∧ last = 0xE then none
  else if opcode = 0x11 ∧ opcode2 = 0x10 ∧ ft = 0 ∧ last = 0xE then none
  else if opcode = 0x11 ∧ opcode2 = 0x10 ∧ ft = 0 ∧ last = 0x21 then none
  else if opcode = 0x11 ∧ opcode2 = 0x14 ∧ ft = 0 ∧ last = 0x21 then none
  else if opcode = 0x11 ∧ opcode2 = 0x11 ∧ ft = 0 ∧ last = 0x20 then none
  else if opcode = 0x11 ∧ opcode2 = 0x14 ∧ ft = 0 ∧ last = 0x20 then none
  else if opcode = 0x11 ∧ opcode2 = 0x11 ∧ ft = 0 ∧ last = 0x24 then none
  else if opcode = 0x11 ∧ opcode2 = 0x10 ∧ ft = 0 ∧ last = 0x24 then none
  else if opcode = 0x11 ∧ opcode2 = 0x11 ∧ last = 3 then none
  else if opcode = 0x11 ∧ opcode2 = 0x10 ∧ last = 3 then none
  else if opcode = 0x11 ∧ opcode2 = 0x11 ∧ ft = 0 ∧ last = 0xF then none
  else if opcode = 0x11 ∧ opcode2 = 0x10 ∧ ft = 0 ∧ last = 0xF then none
  else if opcode = 0x11 ∧ opcode2 = 0x11 ∧ ft = 0 ∧ last = 6 then cpu.mov_d fd fs
  else if opcode = 0x11 ∧ opcode2 = 0x10 ∧ ft = 0 ∧ last = 6 then some (cpu.mov_s fd fs)
  else if opcode = 0x11 ∧ opcode2 = 0x11 ∧ last = 0x13 then cpu.movn_d fd fs ft
  else if opcode = 0x11 ∧ opcode2 = 0x10 ∧ last = 0x13 then some (cpu.movn_s fd fs ft)
  else if opcode = 0x11 ∧ opcode2 = 0x11 ∧ last = 0x12 then cpu.movz_d fd fs ft
  else if opcode = 0x11 ∧ opcode2 = 0x10 ∧ last = 0x12 then some (cpu.movz_s fd fs ft)
  else if opcode = 0x11 ∧ opcode2 = 0x11 ∧ last = 2 then none
  else if opcode = 0x11 ∧ opcode2 = 0x10 ∧ last = 2 then none
  else if opcode = 0x11 ∧ opcode2 = 0x11 ∧ ft = 0 ∧ last = 7 then none
  else if opcode = 0x11 ∧ opcode2 = 0x10 ∧ ft = 0 ∧ last = 7 then none
  else if opcode = 0x11 ∧ opcode2 = 0x11 ∧ ft = 0 ∧ last = 0xC then none
  else if opcode = 0x11 ∧ opcode2 = 0x10 ∧ ft = 0 ∧ last = 0xC then none
  else if opcode = 0x11 ∧ opcode2 = 0x11 ∧ ft = 0 ∧ last = 4 then none
  else if opcode = 0x11 ∧ opcode2 = 0x10 ∧ ft = 0 ∧ last = 4 then none
  else if opcode = 0x11 ∧ opcode2 = 0x11 ∧ last = 1 then none
  else if opcode = 0x11 ∧ opcode2 = 0x10 ∧ last = 1 then none
  else if opcode = 0x11 ∧ opcode2 = 0x11 ∧ ft = 0 ∧ last = 0xD then none
  else if opcode = 0x11 ∧ opcode2 = 0x10 ∧ ft = 0 ∧ last = 0xD then none
  else some cpu

/-- Fourth match statement of `CPU::decode_cp1` (the `c.eq/c.le/c.lt`
compares).  These compare IEEE-754 values on the host and are not
embedded (`none`); every opcode-0x11 word aborts in
`decode_int_instruction` regardless. -/
def decode_cp1_cmp (cpu : CPU) (instruction : Nat) : Option CPU :=
  let opcode := instruction >>> 26
  let opcode2 := instruction >>> 21 &&& 0b11111
  let after_late_cc := instruction >>> 6 &&& 0b11
  let last := instruction &&& 0b111111
  if opcode = 0x11 ∧ (opcode2 = 0x11 ∨ opcode2 = 0x10) ∧ after_late_cc = 0 ∧
     (last = 0x32 ∨ last = 0x3E ∨ last = 0x3C) then none
  else some cpu

/-- Fifth match statement of `CPU::decode_cp1` (`movf` / `movt`). -/
def decode_cp1_cmov (cpu : CPU) (instruction : Nat) : Option CPU :=
  let opcode := instruction >>> 26
  let opcode2 := instruction >>> 21 &&& 0b11111
  let early_cc := instruction >>> 18 &&& 0b111
  let after_early_cc := instruction >>> 16 &&& 0b11
  let fs := instruction >>> 11 &&& 0b11111
  let fd := instruction >>> 6 &&& 0b11111
  let last := instruction &&& 0b111111
  if opcode = 0x11 ∧ opcode2 = 0x11 ∧ after_early_cc = 0 ∧ last = 0x11 then
    cpu.movf_d fd fs early_cc
  else if opcode = 0x11 ∧ opcode2 = 0x10 ∧ after_early_cc = 0 ∧ last = 0x11 then
    some (cpu.movf_s fd fs early_cc)
  else if opcode = 0x11 ∧ opcode2 = 0x11 ∧ after_early_cc = 1 ∧ last = 0x11 then
    cpu.movt_d fd fs early_cc
  else if opcode = 0x11 ∧ opcode2 = 0x10 ∧ after_early_cc = 1 ∧ last = 0x11 then
    some (cpu.movt_s fd fs early_cc)
  else some cpu

/-- `CPU::decode_cp1`: the five match statements run in sequence. -/
def decode_cp1 (cpu : CPU) (instruction : Nat) : Option CPU :=
  let cpu := decode_cp1_ls cpu instruction
  let cpu := decode_cp1_mv cpu instruction
  (decode_cp1_arith cpu instruction).bind fun cpu =>
  (decode_cp1_cmp cpu instruction).bind fun cpu =>
  decode_cp1_cmov cpu instruction

/-- `CPU::decode_trap_instruction`: the `(opcode, rt, imm)` match in
source arm order (fall-through is a no-op). -/
def decode_trap_instruction (cpu : CPU) (instruction : Nat) : CPU :=
  let opcode := instruction >>> 26
  let rs := instruction >>> 21 &&& 0b11111
  let rt := instruction >>> 16 &&& 0b11111
  let imm := instruction &&& 0xFFFF
  if opcode = 0 ∧ imm = 0x34 then cpu.teq rs rt
  else if opcode = 1 ∧ rt = 0xC then cpu.teqi rs imm
  else if opcode = 0 ∧ imm = 0x36 then cpu.tne rs rt
  else if opcode = 1 ∧ rt = 0xE then cpu.tnei rs imm
  else if opcode = 0 ∧ imm = 0x30 then cpu.tge rs rt
  else if opcode = 0 ∧ imm = 0x31 then cpu.tgeu rs rt
  else if opcode = 1 ∧ rt = 8 then cpu.tgei rs imm
  else if opcode = 1 ∧ rt = 9 then cpu.tgeiu rs imm
  else if opcode = 0 ∧ imm = 0x32 then cpu.tlt rs rt
  else if opcode = 0 ∧ imm = 0x33 then cpu.tltu rs rt
  else if opcode = 1 ∧ rt = 0xA then cpu.tlti rs imm
  else if opcode = 1 ∧ rt = 0xB then cpu.tltiu rs imm
  else cpu

/-- `CPU::decode_int_instruction`: the `(opcode, funct)` match.  The
catch-all arm is `panic!("Bad instruction")`, embedded as `none`. -/
def decode_int_instruction (cpu : CPU) (instruction : Nat) : Option CPU :=
  let opcode := instruction >>> 26
  let rs := instruction >>> 21 &&& 0b11111
  let rt := instruction >>> 16 &&& 0b11111
  let rd := instruction >>> 11 &&& 0b11111
  let shamt := instruction >>> 6 &&& 0b11111
  let funct := instruction &&& 0b111111
  let imm := instruction &&& 0xFFFF
  let address := instruction &&& 0x3FFFFFF
  if opcode = 0 ∧ funct = 0 then some (cpu.sll rd rt shamt)
  else if opcode = 0 ∧ funct = 2 then some (cpu.srl rd rt shamt)
  else if opcode = 0 ∧ funct = 3 then some (cpu.sra rd rt shamt)
  else if opcode = 0 ∧ funct = 4 then some (cpu.sllv rd rt rs)
  else if opcode = 0 ∧ funct = 6 then some (cpu.srlv rd rt rs)
  else if opcode = 0 ∧ funct = 7 then some (cpu.srav rd rt rs)
  else if opcode = 0 ∧ funct = 8 then some (cpu.jr rs)
  else if opcode = 0 ∧ funct = 9 then some (cpu.jalr rd rs)
  else if opcode = 0 ∧ funct = 12 then some cpu.syscall
  else if opcode = 0 ∧ funct = 16 then some (cpu.mfhi rd)
  else if opcode = 0 ∧ funct = 17 then some (cpu.mthi rs)
  else if opcode = 0 ∧ funct = 18 then some (cpu.mflo rd)
  else if opcode = 0 ∧ funct = 19 then some (cpu.mtlo rs)
  else if opcode = 0 ∧ funct = 24 then some (cpu.mult rs rt)
  else if opcode = 0 ∧ funct = 25 then some (cpu.multu rs rt)
  else if opcode = 0 ∧ funct = 26 then cpu.div rs rt
  else if opcode = 0 ∧ funct = 27 then cpu.divu rs rt
  else if opcode = 0 ∧ funct = 32 then some (cpu.add rd rs rt)
  else if opcode = 0 ∧ funct = 33 then some (cpu.addu rd rs rt)
  else if opcode = 0 ∧ funct = 34 then some (cpu.sub rd rs rt)
  else if opcode = 0 ∧ funct = 35 then some (cpu.subu rd rs rt)
  else if opcode = 0 ∧ funct = 36 then some (cpu.and rd rs rt)
  else if opcode = 0 ∧ funct = 37 then some (cpu.or rd rs rt)
  else if opcode = 0 ∧ funct = 38 then some (cpu.xor rd rs rt)
  else if opcode = 0 ∧ funct = 39 then some (cpu.nor rd rs rt)
  else if opcode = 0 ∧ funct = 42 then some (cpu.slt rd rs rt)
  else if opcode = 0 ∧ funct = 43 then some (cpu.sltu rd rs rt)
  else if opcode = 2 then some (cpu.j address)
  else if opcode = 3 then some (cpu.jal address)
  else if opcode = 4 then some (cpu.beq rs rt imm)
  else if opcode = 5 then some (cpu.bne rs rt imm)
  else if opcode = 6 then some (cpu.blez rs imm)
  else if opcode = 7 then some (cpu.bgtz rs imm)
  else if opcode = 8 then some (cpu.addi rt rs imm)
  else if opcode = 9 then some (cpu.addiu rt rs imm)
  else if opcode = 10 then some (cpu.slti rt rs imm)
  else if opcode = 11 then some (cpu.sltiu rt rs imm)
  else if opcode = 12 then some (cpu.andi rt rs imm)
  else if opcode = 13 then some (cpu.ori rt rs imm)
  else if opcode = 14 then some (cpu.xori rt rs imm)
  else if opcode = 15 then some (cpu.lui rt imm)
  else if opcode = 32 then some (cpu.lb rt rs imm)
  else if opcode = 33 then some (cpu.lh rt rs imm)
  else if opcode = 34 then some (cpu.lwl rt rs imm)
  else if opcode = 35 then some (cpu.lw rt rs imm)
  else if opcode = 36 then some (cpu.lbu rt rs imm)
  else if opcode = 37 then some (cpu.lhu rt rs imm)
  else if opcode = 38 then some (cpu.lwr rt rs imm)
  else if opcode = 40 then some (cpu.sb rt rs imm)
  else if opcode = 41 then some (cpu.sh rt rs imm)
  else if opcode = 43 then some (cpu.sw rt rs imm)
  else none

/-- The exact bit pattern the decoder recognises as `rfe`. -/
def RFE_PATTERN : Nat := 0x42000010

/-- The exact bit pattern the decoder recognises as `eret`. -/
def ERET_PATTERN : Nat := 0x42000012

/-- `CPU::decode_and_execute`: `rfe` / `eret` return early; otherwise
the four decoders run in sequence (`decode_cp0`, `decode_cp1`,
`decode_trap_instruction`, `decode_int_instruction`). -/
def decode_and_execute (cpu : CPU) (instruction : Nat) : Option CPU :=
  if instruction = RFE_PATTERN then cpu.rfe
  else if instruction = ERET_PATTERN then cpu.eret
  else
    (decode_cp0 cpu instruction).bind fun cpu =>
    (decode_cp1 cpu instruction).bind fun cpu =>
    decode_int_instruction (decode_trap_instruction cpu instruction) instruction

/-- `CPU::partial_write_back` (the `partial_write` descriptor is present
at the only call site; the `none` arm is unreachable). -/
def part_write_back (cpu : CPU) : CPU :=
  let register_number := cpu.memory_buffer.write_back_register
  let content := cpu.int_reg.getD register_number 0
  match cpu.memory_buffer.part_write with
  | none => cpu
  | some (f, t) =>
    let content :=
      if f = 0 then
        let shift := 3 - t
        let word_part := mask32 (cpu.memory_buffer.data <<< shift)
        let mask := not32 (mask32 (0xFFFFFFFF <<< shift))
        content &&& mask ||| word_part
      else
        let shift := f
        let word_part := cpu.memory_buffer.data >>> shift
        let mask := not32 (0xFFFFFFFF >>> shift)
        content &&& mask ||| word_part
    cpu.write_to_reg register_number content

/-- `CPU::write_back`: partial writeback, or sign-extension per
`data_size` (the `_ => panic!("Bad data size")` arm is `none`), then a
write to a GPR (index 0..31) or an FP register (index − 32; the raw
`data` bits are stored there, as in the source). -/
def write_back (cpu : CPU) : Option CPU :=
  if cpu.memory_buffer.part_write.isSome then some cpu.part_write_back
  else
    let data := cpu.memory_buffer.data
    let result :=
      if ¬ cpu.memory_buffer.sign_extended then some data
      else match cpu.memory_buffer.data_size with
        | 4 => some data
        | 2 => some (signExtend16 (data &&& 0xFFFF))
        | 1 => some (signExtend8 (data &&& 0xFF))
        | _ => none
    result.map fun result =>
      let register := cpu.memory_buffer.write_back_register
      if register ≤ 31 then cpu.write_to_reg register result
      else { cpu with cp1_reg := cpu.cp1_reg.set (register - 32) data }

/-- The phase-specific body of `CPU::tick` (everything before the
post-phase kernel-segment check). -/
def tick_phase (cpu : CPU) (data interrupt_requests : Nat) : Option CPU :=
  match cpu.phase with
  | CPUPhase.Fetch =>
    some { cpu with
      memory_buffer :=
        { address := cpu.pc, data := 0, data_size := 4, store := false
          write_back_register := 0, sign_extended := false, part_write := none }
      pc := mask32 (cpu.pc + 4)
      phase := CPUPhase.DecodeAndExecute }
  | CPUPhase.DecodeAndExecute =>
    (decode_and_execute cpu data).map fun cpu =>
      let cpu :=
        if cpu.memory_buffer.write_back_register = 0
        then { cpu with memory_buffer := { cpu.memory_buffer with data_size := 0 } }
        else cpu
      { cpu with phase := CPUPhase.WriteBack }
  | CPUPhase.WriteBack =>
    (if cpu.memory_buffer.data_size > 0 then
       write_back { cpu with memory_buffer := { cpu.memory_buffer with data := data } }
     else some cpu).map fun cpu =>
      { cpu with
        memory_buffer := { cpu.memory_buffer with data_size := 0 }
        phase := CPUPhase.InterruptCheck }
  | CPUPhase.InterruptCheck =>
    let cpu := cpu.set_interrupt_requests interrupt_requests
    let cpu := cpu.handle_interrupts interrupt_requests
    some { cpu with phase := CPUPhase.Fetch }

/-- The post-phase kernel-segment check at the end of `CPU::tick`: a
pending transaction at an address with bit 31 set, outside kernel mode,
is canceled and raises IllegalAddressStore/Load with BadVaddr set. -/
def check_memory_violation (cpu : CPU) : CPU :=
  let address := cpu.memory_buffer.address
  let is_requesting_kernel_space :=
    cpu.memory_buffer.data_size > 0 ∧ address &&& 0x80000000 ≠ 0
  if is_requesting_kernel_space ∧ ¬ cpu.is_kernel_mode then
    let cpu := { cpu with memory_buffer := { cpu.memory_buffer with data_size := 0 } }
    let exception_code : Nat := if cpu.memory_buffer.store then 5 else 4
    cpu.execute_exception exception_code (some address)
  else cpu

/-- `CPU::tick`: one phase step, the post-phase kernel-segment check,
and the returned buffer. -/
def tick (cpu : CPU) (data interrupt_requests : Nat) : Option (CPU × MemoryBuffer) :=
  (tick_phase cpu data interrupt_requests).map fun cpu =>
    let cpu := check_memory_violation cpu
    (cpu, cpu.memory_buffer)

end CPU

/-- The RAM store (struct `Memory` in memory.rs): a flat byte vector.
Out-of-range indexing panics in Rust, hence the `Option` results. -/
structure Memory where
  data : List Nat
deriving DecidableEq, Repr

namespace Memory

/-- `Memory::new`. -/
def new (size : Nat) : Memory := { data := List.replicate size 0 }

/-- `Memory::read_byte`. -/
def read_byte (m : Memory) (address : Nat) : Option Nat := m.data[address]?

/-- `Memory::read_halfword` (big-endian). -/
def read_halfword (m : Memory) (address : Nat) : Option Nat :=
  (m.data[address]?).bind fun b1 =>
  (m.data[address + 1]?).map fun b2 => b1 <<< 8 ||| b2

/-- `Memory::read_word` (big-endian). -/
def read_word (m : Memory) (address : Nat) : Option Nat :=
  (m.data[address]?).bind fun b1 =>
  (m.data[address + 1]?).bind fun b2 =>
  (m.data[address + 2]?).bind fun b3 =>
  (m.data[address + 3]?).map fun b4 =>
    b1 <<< 24 ||| b2 <<< 16 ||| b3 <<< 8 ||| b4

/-- `Memory::read_data` (the `_ => panic!("Bad data size")` arm is `none`). -/
def read_data (m : Memory) (address : Nat) (size : Nat) : Option Nat :=
  match size with
  | 1 => m.read_byte address
  | 2 => m.read_halfword address
  | 4 => m.read_word address
  | _ => none

/-- `Memory::write_byte` (`data as u8`). -/
def write_byte (m : Memory) (address data : Nat) : Option Memory :=
  if address < m.data.length then some { data := m.data.set address (data &&& 0xFF) }
  else none

/-- `Memory::write_halfword` (`data as u16`, big-endian). -/
def write_halfword (m : Memory) (address data : Nat) : Option Memory :=
  if address + 1 < m.data.length then
    let data := data &&& 0xFFFF
    some { data := (m.data.set address (data >>> 8 &&& 0xFF)).set (address + 1) (data &&& 0xFF) }
  else none

/-- `Memory::write_word` (`u32::to_be_bytes`). -/
def write_word (m : Memory) (address data : Nat) : Option Memory :=
  if address + 3 < m.data.length then
    let data := data % 2 ^ 32
    some { data :=
      ((((m.data.set address (data >>> 24 &&& 0xFF)).set
          (address + 1) (data >>> 16 &&& 0xFF)).set
          (address + 2) (data >>> 8 &&& 0xFF)).set
          (address + 3) (data &&& 0xFF)) }
  else none

/-- `Memory::write_data`. -/
def write_data (m : Memory) (address data : Nat) (size : Nat) : Option Memory :=
  match size with
  | 1 => m.write_byte address data
  | 2 => m.write_halfword address data
  | 4 => m.write_word address data
  | _ => none

end Memory

/-- The driver state (struct `Computer` in mod.rs, without the video
presenter, which never feeds back into the CPU or the RAM). -/
structure Computer where
  cpu : CPU
  ram : Memory
deriving DecidableEq, Repr

namespace Computer

/-- `Computer::cpu_step`: the four ticks of one architectural
instruction cycle, servicing the CPU's memory requests against RAM. -/
def cpu_step (c : Computer) (interrupt_requests : Nat) : Option Computer :=
  (c.cpu.tick 0 interrupt_requests).bind fun (cpu, mem_request) =>
  let pc := mem_request.address
  (c.ram.read_data pc 4).bind fun instruction =>
  (cpu.tick instruction interrupt_requests).bind fun (cpu, mem_request) =>
  (if mem_request.data_size = 0 then
     (cpu.tick 0 interrupt_requests).map fun (cpu, _) => (cpu, c.ram)
   else if mem_request.store = false then
     (c.ram.read_data mem_request.address mem_request.data_size).bind fun data =>
     (cpu.tick data interrupt_requests).map fun (cpu, _) => (cpu, c.ram)
   else
     (c.ram.write_data mem_request.address mem_request.data mem_request.data_size).bind fun ram =>
     (cpu.tick 0 interrupt_requests).map fun (cpu, _) => (cpu, ram)).bind
  fun (cpu, ram) =>
  (cpu.tick 0 interrupt_requests).map fun (cpu, _) =>
  { cpu := cpu, ram := ram }

end Computer

/-- The Status register (CP0 index 12). -/
def statusReg (cpu : CPU) : Nat := cpu.cp0_reg.getD 12 0

/-- The Cause register (CP0 index 13). -/
def causeReg (cpu : CPU) : Nat := cpu.cp0_reg.getD 13 0

/-- The EPC register (CP0 index 14). -/
def epcReg (cpu : CPU) : Nat := cpu.cp0_reg.getD 14 0

/-- The BadVaddr register (CP0 index 8). -/
def badVaddrReg (cpu : CPU) : Nat := cpu.cp0_reg.getD 8 0

/-- The exception code field of Cause: bits [6:2]. -/
def exceptionCodeOf (cpu : CPU) : Nat := causeReg cpu >>> 2 &&& 0b11111

/-- Initial processor state of the store/load round-trip scenario:
`CPU::new` with GPR[1] = 0x11223344. -/
def c1cpu0 : CPU := { CPU.new with int_reg := CPU.new.int_reg.set 1 0x11223344 }

/-- RAM image of the store/load round-trip scenario: `sw $1, 0x100($0)`
(0xAC010100) at address 0 and `lw $2, 0x100($0)` (0x8C020100) at
address 4, zero elsewhere (0x110 bytes). -/
def c1ram0 : Memory :=
  { data := [0xAC, 0x01, 0x01, 0x00, 0x8C, 0x02, 0x01, 0x00] ++ List.replicate 0x108 0 }

/-- Claim C1 (status: code_bug).  In the store/load round-trip scenario
the `sw` buffer leaves the DecodeAndExecute tick with `data_size = 0`,
not 4: every store sets `write_back_register = 0`, and the tick then
zeroes `data_size` whenever `write_back_register = 0`, so the driver
never performs the RAM write.  After both instruction cycles GPR[2] = 0
and the word at 0x100 is still 0, not 0x11223344 as the claim states. -/
theorem store_load_roundtrip_store_canceled :
    ((CPU.tick c1cpu0 0 0).bind fun p => CPU.tick p.1 0xAC010100 0).map
        (fun p => (p.2.data_size, p.2.store, p.2.address, p.2.data))
      = some (0, true, 0x100, 0x11223344) ∧
    ((Computer.cpu_step ⟨c1cpu0, c1ram0⟩ 0).bind fun c => Computer.cpu_step c 0).map
        (fun c => (c.cpu.pc, c.cpu.readReg 2, c.ram.read_word 0x100))
      = some (8, 0, some 0) := by
  exact ⟨by decide, by decide⟩

/-- Claim C3 (status: code_bug).  `CPU::execute_exception` sets Status
bits [5:2] to the constant 0b1111 (the binding `previous_current_status
= 0b1111` is a literal, despite the comment "keep statuses"), instead of
shifting the prior mode stack left.  From the initial state (Status =
0x0000FF01, so prior bits [3:2] = 00) any exception yields Status =
0x0000FF3C, whose bits [5:4] are 11 ≠ 00: the claimed `old ← previous`
transfer does not happen. -/
theorem exception_status_stack_constant :
    statusReg (CPU.new.execute_exception 8 none) = 0x0000FF3C ∧
    statusReg (CPU.new.execute_exception 8 none) >>> 4 &&& 0b11 = 0b11 ∧
    statusReg CPU.new >>> 2 &&& 0b11 = 0 := by
  exact ⟨by decide, by decide, by decide⟩

/-- RAM image of the syscall scenario: `syscall` (0x0000000C) at 0. -/
def c4ram0 : Memory := { data := [0, 0, 0, 0x0C] ++ List.replicate 12 0 }

/-- Claim C4 (status: code_bug).  After the four-tick cycle of `syscall`
at address 0: PC = 0x80000180 and Cause code = 8 as claimed, and the
Status current bits are 00; but EPC = 4 (the fetch phase increments PC
before `execute_exception` saves it), not 0, and the Status previous
bits are 11 (the constant written by `execute_exception`), not the prior
current bits 01. -/
theorem syscall_scenario_actual_state :
    (Computer.cpu_step ⟨CPU.new, c4ram0⟩ 0).map
        (fun c => (epcReg c.cpu, c.cpu.pc, exceptionCodeOf c.cpu,
                   statusReg c.cpu &&& 0b11, statusReg c.cpu >>> 2 &&& 0b11))
      = some (4, 0x80000180, 8, 0, 3) ∧ (4 : Nat) ≠ 0 ∧ (3 : Nat) ≠ 1 := by
  exact ⟨by decide, by decide, by decide⟩

/-- Initial state for the unaligned-load counterexample: GPR[1] =
0x11223344, phase DecodeAndExecute (instruction already fetched). -/
def c5cpu0 : CPU :=
  { CPU.new with
    int_reg := CPU.new.int_reg.set 1 0x11223344
    phase := CPUPhase.DecodeAndExecute }

/-- Claim C5 (status: code_bug).  `lwl $1, 0x101($0)` (0x88010101) sets
`partial_write = (0, 2)` as the claim's formulas say, but
`CPU::partial_write_back` shifts by `3 - to` BITS, not bytes (`data <<
shift` with `shift = 1`), and its mask keeps only the low `shift` bits.
Merging the loaded word 0xAABBCCDD into 0x11223344 therefore yields
0x557799BA, not the byte-wise merge 0xBBCCDD44 the claim describes. -/
theorem lwl_partial_writeback_shifts_bits :
    (CPU.tick c5cpu0 0x88010101 0).map
        (fun p => (p.2.address, p.2.data_size, p.2.part_write))
      = some (0x100, 4, some (0, 2)) ∧
    ((CPU.tick c5cpu0 0x88010101 0).bind fun p => CPU.tick p.1 0xAABBCCDD 0).map
        (fun p => p.1.readReg 1)
      = some 0x557799BA ∧ (0x557799BA : Nat) ≠ 0xBBCCDD44 := by
  exact ⟨by decide, by decide, by decide⟩

/-- State for the add-overflow counterexample: GPR[1] = GPR[2] =
0x80000000 (i.e. −2³¹), PC already incremented to 4. -/
def c6cpu0 : CPU :=
  { CPU.new with
    int_reg := (CPU.new.int_reg.set 1 0x80000000).set 2 0x80000000
    pc := 4, phase := CPUPhase.DecodeAndExecute }

/-- Claim C6 (status: code_bug).  `add $3, $1, $2` (0x00221820) with
both operands −2³¹ has exact signed sum −2³², outside the `i32` range,
so the claim requires an Overflow exception; but the source's check
`(op1 < 0 && op2 < 0 && result > 0)` fails because the wrapped result is
exactly 0, so no exception is raised (Cause code stays 0, PC stays 4,
EPC stays 0) and GPR[3] = 0 is written. -/
theorem add_overflow_check_misses_min_min :
    (CPU.tick c6cpu0 0x00221820 0).map
        (fun p => (p.1.readReg 3, p.1.pc, exceptionCodeOf p.1, epcReg p.1))
      = some (0, 4, 0, 0) ∧
    toSigned32 0x80000000 + toSigned32 0x80000000 < -(2 ^ 31) := by
  exact ⟨by decide, by decide⟩

/-- State for the slt counterexample: GPR[1] = 0x80000000 (−2³¹),
GPR[2] = 1. -/
def c7cpu0 : CPU :=
  { CPU.new with
    int_reg := (CPU.new.int_reg.set 1 0x80000000).set 2 1
    pc := 4, phase := CPUPhase.DecodeAndExecute }

/-- Claim C7 (status: code_bug).  `slt $3, $1, $2` (0x0022182A) with
GPR[1] = −2³¹ and GPR[2] = 1 writes 0, because the source tests the
sign of the wrapped `i32` difference (−2³¹ − 1 wraps to +2³¹−1 ≥ 0),
whereas the signed comparison the claim specifies is true
(−2³¹ < 1), requiring 1. -/
theorem slt_wrapped_difference_miscompares :
    (CPU.tick c7cpu0 0x0022182A 0).map (fun p => p.1.readReg 3) = some 0 ∧
    toSigned32 0x80000000 < toSigned32 1 := by
  exact ⟨by decide, by decide⟩

/-- State for the branch-offset counterexample: equal operands
(register 0 against itself), PC = 4 after the fetch increment. -/
def c8cpu0 : CPU := { CPU.new with pc := 4, phase := CPUPhase.DecodeAndExecute }

/-- Claim C8 (status: code_bug).  `beq $0, $0, 0x2000` (0x10002000) is a
taken branch with N = 0x2000, so the claim requires PC ← 4 + 4·0x2000 =
0x8004; but `CPU::branch` multiplies as an `i16` (`(imm as i16) * 4`),
so 4·0x2000 = 0x8000 wraps to −32768 and PC becomes 0xFFFF8004. -/
theorem beq_offset_wraps_in_i16 :
    (CPU.tick c8cpu0 0x10002000 0).map (fun p => p.1.pc) = some 0xFFFF8004 ∧
    (0xFFFF8004 : Nat) ≠ 0x8004 := by
  exact ⟨by decide, by decide⟩

/-- No arm of the `decode_int_instruction` match covers opcode 1, 16,
17, 0x31 or 0x39, or an opcode-0 word with a trap funct, so those words
reach the catch-all `panic!`. -/
theorem decode_int_instruction_catch_all (cpu : CPU) (instruction : Nat)
    (hop : instruction >>> 26 = 1 ∨ instruction >>> 26 = 16 ∨ instruction >>> 26 = 17 ∨
           instruction >>> 26 = 0x31 ∨ instruction >>> 26 = 0x39 ∨
           (instruction >>> 26 = 0 ∧
             (instruction &&& 0b111111 = 0x30 ∨ instruction &&& 0b111111 = 0x31 ∨
              instruction &&& 0b111111 = 0x32 ∨ instruction &&& 0b111111 = 0x33 ∨
              instruction &&& 0b111111 = 0x34 ∨ instruction &&& 0b111111 = 0x36))) :
    CPU.decode_int_instruction cpu instruction = none := by
  simp only [CPU.decode_int_instruction]
  rcases hop with h | h | h | h | h | ⟨h, hf⟩
  · simp [h]
  · simp [h]
  · simp [h]
  · simp [h]
  · simp [h]
  · rcases hf with hf | hf | hf | hf | hf | hf <;> simp [h, hf]

/-- Claim C2 (status: confirmed).  Every instruction word whose opcode
field is 1, 16, 17, 0x31 or 0x39, and every opcode-0 word whose funct
field is a trap funct (0x30-0x34, 0x36) — excluding only the exact rfe
and eret bit patterns — makes `decode_and_execute` fall through to the
`decode_int_instruction` catch-all `panic!` and abort, from any
processor state.  The earlier decoders (`decode_cp0`, `decode_cp1`,
`decode_trap_instruction`) run first, so any register writes, raised
exceptions or condition-code updates of the word are applied before the
abort (and are discarded with the process). -/
theorem unimplemented_opcode_families_abort (cpu : CPU) (instruction : Nat)
    (hop : instruction >>> 26 = 1 ∨ instruction >>> 26 = 16 ∨ instruction >>> 26 = 17 ∨
           instruction >>> 26 = 0x31 ∨ instruction >>> 26 = 0x39 ∨
           (instruction >>> 26 = 0 ∧
             (instruction &&& 0b111111 = 0x30 ∨ instruction &&& 0b111111 = 0x31 ∨
              instruction &&& 0b111111 = 0x32 ∨ instruction &&& 0b111111 = 0x33 ∨
              instruction &&& 0b111111 = 0x34 ∨ instruction &&& 0b111111 = 0x36)))
    (hrfe : instruction ≠ CPU.RFE_PATTERN) (heret : instruction ≠ CPU.ERET_PATTERN) :
    CPU.decode_and_execute cpu instruction = none := by
  simp only [CPU.decode_and_execute, if_neg hrfe, if_neg heret]
  cases h0 : CPU.decode_cp0 cpu instruction with
  | none => rfl
  | some c1 =>
    cases h1 : CPU.decode_cp1 c1 instruction with
    | none => simp [h1]
    | some c2 =>
      simp [h1, decode_int_instruction_catch_all _ _ hop]

/-- Bit 1 of the Status value written by `execute_exception` is clear:
the processor is left in kernel mode. -/
theorem exception_status_and_two (s : Nat) :
    (s &&& not32 0b111111 ||| 0b111100) &&& 0b10 = 0 := by
  apply Nat.eq_of_testBit_eq
  intro i
  rw [Nat.testBit_and, Nat.zero_testBit]
  match i with
  | 0 => simp [show Nat.testBit 0b10 0 = false from by decide]
  | 1 =>
    rw [Nat.testBit_or, Nat.testBit_and]
    simp [show Nat.testBit (not32 0b111111) 1 = false from by decide,
          show Nat.testBit 0b111100 1 = false from by decide]
  | n + 2 =>
    have h2 : (0b10 : Nat) < 2 ^ (n + 2) := by
      calc (0b10 : Nat) < 2 ^ 2 := by norm_num
        _ ≤ 2 ^ (n + 2) := Nat.pow_le_pow_right (by norm_num) (by omega)
    simp [Nat.testBit_lt_two_pow h2]

/-- Extracting bits [6:2] of the Cause value written by
`execute_exception` recovers the exception code. -/
theorem exception_cause_code (c k : Nat) (hk : k < 32) :
    (c &&& not32 0b1111100 ||| (k &&& 0b11111) <<< 2) >>> 2 &&& 0b11111 = k := by
  have hk31 : k &&& 0b11111 = k := by
    rw [show (0b11111 : Nat) = 2 ^ 5 - 1 from rfl, Nat.and_pow_two_sub_one_eq_mod,
        Nat.mod_eq_of_lt hk]
  rw [hk31]
  apply Nat.eq_of_testBit_eq
  intro i
  rw [Nat.testBit_and, Nat.testBit_shiftRight, Nat.testBit_or, Nat.testBit_and,
      Nat.testBit_shiftLeft]
  by_cases hi : i < 5
  · have hm : Nat.testBit (not32 0b1111100) (2 + i) = false := by
      interval_cases i <;> decide
    have h31 : Nat.testBit 0b11111 i = true := by
      interval_cases i <;> decide
    have hidx : 2 + i - 2 = i := by omega
    simp [hm, h31, hidx]
  · have h31 : Nat.testBit 0b11111 i = false := by
      apply Nat.testBit_lt_two_pow
      calc (0b11111 : Nat) < 2 ^ 5 := by norm_num
        _ ≤ 2 ^ i := Nat.pow_le_pow_right (by norm_num) (by omega)
    have hki : Nat.testBit k i = false := by
      apply Nat.testBit_lt_two_pow
      calc k < 2 ^ 5 := hk
        _ ≤ 2 ^ i := Nat.pow_le_pow_right (by norm_num) (by omega)
    simp [h31, hki]

/-- The observable effect of `CPU::execute_exception` with a bad
address, for a well-formed CP0 file (32 entries) and a 5-bit code. -/
theorem execute_exception_spec (cpu : CPU) (code addr : Nat)
    (hlen : cpu.cp0_reg.length = 32) (hcode : code < 32) :
    badVaddrReg (cpu.execute_exception code (some addr)) = addr ∧
    exceptionCodeOf (cpu.execute_exception code (some addr)) = code ∧
    (cpu.execute_exception code (some addr)).pc = EXCEPTION_HANDLER_ADDRESS ∧
    (cpu.execute_exception code (some addr)).is_kernel_mode = true ∧
    (cpu.execute_exception code (some addr)).memory_buffer = cpu.memory_buffer := by
  refine ⟨?_, ?_, rfl, ?_, rfl⟩
  · simp [badVaddrReg, CPU.execute_exception, List.getD_eq_getElem?_getD,
          List.getElem?_set_ne, List.getElem?_set_self, hlen]
  · simp [exceptionCodeOf, causeReg, CPU.execute_exception, List.getD_eq_getElem?_getD,
          List.getElem?_set_ne, List.getElem?_set_self, hlen,
          exception_cause_code _ _ hcode]
  · simp [CPU.is_kernel_mode, statusReg, CPU.execute_exception, List.getD_eq_getElem?_getD,
          List.getElem?_set_ne, List.getElem?_set_self, hlen,
          exception_status_and_two]

/-- Claim C9 (status: confirmed).  If `tick` returns (rather than
aborting), then whenever the returned state is not in kernel mode the
returned buffer carries no pending transaction at an address with bit 31
set; and if the phase body produced such a buffer outside kernel mode,
the returned buffer is canceled (`data_size = 0`) and an
IllegalAddressStore (code 5, store) or IllegalAddressLoad (code 4, load)
exception is taken with BadVaddr = the offending address, PC = the
exception vector, and the processor back in kernel mode. -/
theorem privilege_gate_cancels_kernel_access
    (cpu mid fin : CPU) (buf : MemoryBuffer) (data irq : Nat)
    (hphase : CPU.tick_phase cpu data irq = some mid)
    (hlen : mid.cp0_reg.length = 32)
    (htick : CPU.tick cpu data irq = some (fin, buf)) :
    (fin.is_kernel_mode = false →
      ¬(0 < buf.data_size ∧ buf.address &&& 0x80000000 ≠ 0)) ∧
    ((mid.memory_buffer.data_size > 0 ∧ mid.memory_buffer.address &&& 0x80000000 ≠ 0) ∧
        mid.is_kernel_mode = false →
      buf.data_size = 0 ∧
      badVaddrReg fin = mid.memory_buffer.address ∧
      exceptionCodeOf fin = (if mid.memory_buffer.store then 5 else 4) ∧
      fin.pc = EXCEPTION_HANDLER_ADDRESS ∧
      fin.is_kernel_mode = true) := by
  rw [CPU.tick, hphase] at htick
  simp only [Option.map_some', Option.some.injEq, Prod.mk.injEq] at htick
  obtain ⟨hfin, hbuf⟩ := htick
  by_cases hv : (mid.memory_buffer.data_size > 0 ∧
      mid.memory_buffer.address &&& 0x80000000 ≠ 0) ∧ ¬ mid.is_kernel_mode
  · have hcheck : CPU.check_memory_violation mid =
        CPU.execute_exception
          { mid with memory_buffer := { mid.memory_buffer with data_size := 0 } }
          (if mid.memory_buffer.store then 5 else 4) (some mid.memory_buffer.address) := by
      simp only [CPU.check_memory_violation]
      rw [if_pos hv]
    rw [hcheck] at hfin hbuf
    have hspec := execute_exception_spec
      { mid with memory_buffer := { mid.memory_buffer with data_size := 0 } }
      (if mid.memory_buffer.store then 5 else 4) mid.memory_buffer.address
      (by simpa using hlen) (by split <;> norm_num)
    obtain ⟨hbv, hcode, hpc, hker, hmb⟩ := hspec
    have hds : buf.data_size = 0 := by rw [← hbuf, hmb]
    constructor
    · intro _ hbad
      rw [hds] at hbad
      exact absurd hbad.1 (by omega)
    · intro _
      refine ⟨hds, ?_, ?_, ?_, ?_⟩
      · rw [← hfin]; exact hbv
      · rw [← hfin]; exact hcode
      · rw [← hfin]; exact hpc
      · rw [← hfin]; exact hker
  · have hcheck : CPU.check_memory_violation mid = mid := by
      simp only [CPU.check_memory_violation]
      rw [if_neg hv]
    rw [hcheck] at hfin hbuf
    constructor
    · intro hkf hbad
      apply hv
      constructor
      · rw [← hbuf] at hbad
        exact ⟨hbad.1, hbad.2⟩
      · rw [← hfin] at hkf
        simp [hkf]
    · intro h
      obtain ⟨hbad, hkf⟩ := h
      exact absurd ⟨hbad, by simp [hkf]⟩ hv

/-- A user-mode processor (Status = 0x0000FF03) about to fetch from the
kernel segment (PC = 0x80000000). -/
def c9cpu0 : CPU :=
  { CPU.new with cp0_reg := CPU.new.cp0_reg.set 12 0x0000FF03, pc := 0x80000000 }

/-- The state `c9cpu0` reaches after the Fetch phase body: a pending
4-byte read at 0x80000000, before the post-phase privilege check. -/
def c9mid : CPU :=
  { c9cpu0 with
    memory_buffer :=
      { address := 0x80000000, data := 0, data_size := 4, store := false
        write_back_register := 0, sign_extended := false, part_write := none }
    pc := 0x80000004
    phase := CPUPhase.DecodeAndExecute }

/-- The state returned by that tick: transaction canceled, BadVaddr =
0x80000000, Cause code 4 (IllegalAddressLoad), PC at the exception
vector, Status = 0x0000FF3C (kernel mode). -/
def c9fin : CPU :=
  { int_reg := List.replicate 32 0
    cp0_reg := [0, 0, 0, 0, 0, 0, 0, 0, 0x80000000, 0, 0, 0,
                0x0000FF3C, 16, 0x80000004, 0] ++ List.replicate 16 0
    hi := 0
    lo := 0
    cp1_reg := List.replicate 32 0
    cc := List.replicate 8 false
    pc := 0x80000180
    memory_buffer :=
      { address := 0x80000000, data := 0, data_size := 0, store := false
        write_back_register := 0, sign_extended := false, part_write := none }
    phase := CPUPhase.DecodeAndExecute }

/-- The buffer returned with `c9fin`: the canceled fetch request. -/
def c9buf : MemoryBuffer :=
  { address := 0x80000000, data := 0, data_size := 0, store := false
    write_back_register := 0, sign_extended := false, part_write := none }

/-- Witness for C9: a user-mode fetch from 0x80000000 is canceled and
takes IllegalAddressLoad with BadVaddr = 0x80000000. -/
theorem privilege_gate_cancels_kernel_access_witness :
    CPU.tick_phase c9cpu0 0 0 = some c9mid ∧
    c9mid.cp0_reg.length = 32 ∧
    CPU.tick c9cpu0 0 0 = some (c9fin, c9buf) ∧
    (c9buf.data_size = 0 ∧ badVaddrReg c9fin = 0x80000000 ∧
     exceptionCodeOf c9fin = 4 ∧ c9fin.pc = EXCEPTION_HANDLER_ADDRESS ∧
     c9fin.is_kernel_mode = true) := by
  refine ⟨by decide, by decide, by decide, ?_⟩
  have h := (privilege_gate_cancels_kernel_access c9cpu0 c9mid c9fin c9buf 0 0
    (by decide) (by decide) (by decide)).2 ⟨⟨by decide, by decide⟩, by decide⟩
  exact ⟨h.1, h.2.1, by simpa using h.2.2.1, h.2.2.2.1, h.2.2.2.2⟩

/-- Reassembling the four big-endian bytes of a 32-bit word recovers
the word. -/
theorem word_reassemble (w : Nat) (hw : w < 2 ^ 32) :
    (w >>> 24 &&& 0xFF) <<< 24 ||| (w >>> 16 &&& 0xFF) <<< 16 |||
      (w >>> 8 &&& 0xFF) <<< 8 ||| (w &&& 0xFF) = w := by
  apply Nat.eq_of_testBit_eq
  intro i
  rw [show (0xFF : Nat) = 2 ^ 8 - 1 from rfl]
  simp only [Nat.testBit_or, Nat.testBit_shiftLeft, Nat.testBit_and,
             Nat.testBit_shiftRight, Nat.testBit_two_pow_sub_one]
  by_cases h32 : i < 32
  · interval_cases i <;> simp
  · have hwi : w.testBit i = false :=
      Nat.testBit_lt_two_pow
        (lt_of_lt_of_le hw (Nat.pow_le_pow_right (by norm_num) (by omega)))
    simp [hwi, show ¬i - 24 < 8 by omega, show ¬i - 16 < 8 by omega,
          show ¬i - 8 < 8 by omega, show ¬i < 8 by omega]

/-- Reassembling the two big-endian bytes of a 16-bit value recovers
the value. -/
theorem half_reassemble (x : Nat) (hx : x < 2 ^ 16) :
    (x >>> 8 &&& 0xFF) <<< 8 ||| (x &&& 0xFF) = x := by
  apply Nat.eq_of_testBit_eq
  intro i
  rw [show (0xFF : Nat) = 2 ^ 8 - 1 from rfl]
  simp only [Nat.testBit_or, Nat.testBit_shiftLeft, Nat.testBit_and,
             Nat.testBit_shiftRight, Nat.testBit_two_pow_sub_one]
  by_cases h16 : i < 16
  · interval_cases i <;> simp
  · have hxi : x.testBit i = false :=
      Nat.testBit_lt_two_pow
        (lt_of_lt_of_le hx (Nat.pow_le_pow_right (by norm_num) (by omega)))
    simp [hxi, show ¬i - 8 < 8 by omega, show ¬i < 8 by omega]

/-- Claim C10 (status: confirmed).  Whenever `Memory::write_data`
succeeds (the address range is within the byte array), reading the same
address back with the same size returns: the full word for size 4 (with
the most significant byte stored at the lowest address), and the word
truncated to its low 16 or 8 bits for sizes 2 and 1. -/
theorem memory_big_endian_roundtrip (m : Memory) (addr w : Nat) (hw : w < 2 ^ 32) :
    (∀ m4, m.write_data addr w 4 = some m4 →
       m4.read_data addr 4 = some w ∧ m4.data[addr]? = some (w >>> 24 &&& 0xFF)) ∧
    (∀ m2, m.write_data addr w 2 = some m2 → m2.read_data addr 2 = some (w % 2 ^ 16)) ∧
    (∀ m1, m.write_data addr w 1 = some m1 → m1.read_data addr 1 = some (w % 2 ^ 8)) := by
  have hwmod : w % 2 ^ 32 = w := Nat.mod_eq_of_lt hw
  refine ⟨?_, ?_, ?_⟩
  · intro m4 h
    simp only [Memory.write_data, Memory.write_word, hwmod] at h
    split at h
    case isFalse => exact absurd h (by simp)
    case isTrue hlt =>
      simp only [Option.some.injEq] at h
      subst h
      have h0 : ((((m.data.set addr (w >>> 24 &&& 0xFF)).set
            (addr + 1) (w >>> 16 &&& 0xFF)).set
            (addr + 2) (w >>> 8 &&& 0xFF)).set
            (addr + 3) (w &&& 0xFF))[addr]? = some (w >>> 24 &&& 0xFF) := by
        rw [List.getElem?_set_ne (by omega), List.getElem?_set_ne (by omega),
            List.getElem?_set_ne (by omega), List.getElem?_set_self (by omega)]
      have h1 : ((((m.data.set addr (w >>> 24 &&& 0xFF)).set
            (addr + 1) (w >>> 16 &&& 0xFF)).set
            (addr + 2) (w >>> 8 &&& 0xFF)).set
            (addr + 3) (w &&& 0xFF))[addr + 1]? = some (w >>> 16 &&& 0xFF) := by
        rw [List.getElem?_set_ne (by omega), List.getElem?_set_ne (by omega),
            List.getElem?_set_self (by simp; omega)]
      have h2 : ((((m.data.set addr (w >>> 24 &&& 0xFF)).set
            (addr + 1) (w >>> 16 &&& 0xFF)).set
            (addr + 2) (w >>> 8 &&& 0xFF)).set
            (addr + 3) (w &&& 0xFF))[addr + 2]? = some (w >>> 8 &&& 0xFF) := by
        rw [List.getElem?_set_ne (by omega), List.getElem?_set_self (by simp; omega)]
      have h3 : ((((m.data.set addr (w >>> 24 &&& 0xFF)).set
            (addr + 1) (w >>> 16 &&& 0xFF)).set
            (addr + 2) (w >>> 8 &&& 0xFF)).set
            (addr + 3) (w &&& 0xFF))[addr + 3]? = some (w &&& 0xFF) := by
        rw [List.getElem?_set_self (by simp; omega)]
      refine ⟨?_, h0⟩
      simp only [Memory.read_data, Memory.read_word, h0, h1, h2, h3,
                 Option.some_bind, Option.map_some', Option.some.injEq]
      exact word_reassemble w hw
  · intro m2 h
    simp only [Memory.write_data, Memory.write_halfword] at h
    split at h
    case isFalse => exact absurd h (by simp)
    case isTrue hlt =>
      simp only [Option.some.injEq] at h
      subst h
      have h0 : ((m.data.set addr ((w &&& 0xFFFF) >>> 8 &&& 0xFF)).set
            (addr + 1) (w &&& 0xFFFF &&& 0xFF))[addr]?
          = some ((w &&& 0xFFFF) >>> 8 &&& 0xFF) := by
        rw [List.getElem?_set_ne (by omega), List.getElem?_set_self (by omega)]
      have h1 : ((m.data.set addr ((w &&& 0xFFFF) >>> 8 &&& 0xFF)).set
            (addr + 1) (w &&& 0xFFFF &&& 0xFF))[addr + 1]?
          = some (w &&& 0xFFFF &&& 0xFF) := by
        rw [List.getElem?_set_self (by simp; omega)]
      simp only [Memory.read_data, Memory.read_halfword, h0, h1,
                 Option.some_bind, Option.map_some', Option.some.injEq]
      have hx : w &&& 0xFFFF = w % 2 ^ 16 := by
        rw [show (0xFFFF : Nat) = 2 ^ 16 - 1 from rfl, Nat.and_pow_two_sub_one_eq_mod]
      rw [hx]
      exact half_reassemble (w % 2 ^ 16) (Nat.mod_lt _ (by norm_num))
  · intro m1 h
    simp only [Memory.write_data, Memory.write_byte] at h
    split at h
    case isFalse => exact absurd h (by simp)
    case isTrue hlt =>
      simp only [Option.some.injEq] at h
      subst h
      simp only [Memory.read_data, Memory.read_byte,
                 List.getElem?_set_self (by omega : addr < m.data.length),
                 Option.some.injEq]
      rw [show (0xFF : Nat) = 2 ^ 8 - 1 from rfl, Nat.and_pow_two_sub_one_eq_mod]

/-- A six-byte RAM image for the round-trip witness. -/
def c10mem0 : Memory := { data := List.replicate 6 0 }

/-- `c10mem0` after writing 0x11223344 at address 1, size 4. -/
def c10mem4 : Memory := { data := [0, 0x11, 0x22, 0x33, 0x44, 0] }

/-- `c10mem0` after writing 0x11223344 at address 1, size 2. -/
def c10mem2 : Memory := { data := [0, 0x33, 0x44, 0, 0, 0] }

/-- `c10mem0` after writing 0x11223344 at address 1, size 1. -/
def c10mem1 : Memory := { data := [0, 0x44, 0, 0, 0, 0] }

/-- Witness for C10: writing 0x11223344 at address 1 and reading it
back, in all three sizes. -/
theorem memory_big_endian_roundtrip_witness :
    Memory.write_data c10mem0 1 0x11223344 4 = some c10mem4 ∧
    Memory.read_data c10mem4 1 4 = some 0x11223344 ∧
    c10mem4.data[1]? = some (0x11223344 >>> 24 &&& 0xFF) ∧
    Memory.write_data c10mem0 1 0x11223344 2 = some c10mem2 ∧
    Memory.read_data c10mem2 1 2 = some (0x11223344 % 2 ^ 16) ∧
    Memory.write_data c10mem0 1 0x11223344 1 = some c10mem1 ∧
    Memory.read_data c10mem1 1 1 = some (0x11223344 % 2 ^ 8) :=
  ⟨by decide,
   ((memory_big_endian_roundtrip c10mem0 1 0x11223344 (by decide)).1 c10mem4 (by decide)).1,
   ((memory_big_endian_roundtrip c10mem0 1 0x11223344 (by decide)).1 c10mem4 (by decide)).2,
   by decide,
   (memory_big_endian_roundtrip c10mem0 1 0x11223344 (by decide)).2.1 c10mem2 (by decide),
   by decide,
   (memory_big_endian_roundtrip c10mem0 1 0x11223344 (by decide)).2.2 c10mem1 (by decide)⟩

/-- Witness for C2: the word 0x44000000 (opcode 17, a coprocessor-1
operation) aborts the decoder from the initial state. -/
theorem unimplemented_opcode_families_abort_witness :
    (0x44000000 : Nat) >>> 26 = 17 ∧
    (0x44000000 : Nat) ≠ CPU.RFE_PATTERN ∧ (0x44000000 : Nat) ≠ CPU.ERET_PATTERN ∧
    CPU.decode_and_execute CPU.new 0x44000000 = none :=
  ⟨by decide, by decide, by decide,
   unimplemented_opcode_families_abort CPU.new 0x44000000
     (Or.inr (Or.inr (Or.inl (by decide)))) (by decide) (by decide)⟩
